import Mathlib

/-!
Shallow embedding of the kanban backend (NestJS + Prisma + Postgres).

The embedding covers the `Todo` data model (prisma `model Todo` from the
README / migration `20260106100707_add_kanban_logic`), the Zod request
schema `createTodoSchema` (src/backend/src/todo/dto/create-todo.dto.ts),
the four store operations of `TodoService`
(src/backend/src/todo/todo.service.ts) together with the routing facts of
`TodoController` that matter semantically (which routes carry the
`ZodValidationPipe`), and the response envelope of `TransformInterceptor`
(src/backend/src/common/interceptors/transform.interceptor.ts).

Database state is a list of rows plus the autoincrement sequence; time is
an abstract `Nat` passed to every operation that stamps rows.  Library
behavior of Prisma/Postgres that the service relies on is embedded as
documented: an enum column sorts in declaration order, `update`/`delete`
on a missing row fail with a record-not-found error (P2025), the Prisma
client rejects a value outside a declared enum before running the query,
and column defaults (`status TODO`, `position 0`) fill fields that the
create payload leaves undefined.
-/

deriving instance DecidableEq for Except

namespace Kanban

/-- The Postgres enum `TaskStatus` from the migration:
`CREATE TYPE "TaskStatus" AS ENUM ('TODO', 'IN_PROGRESS', 'DONE')`.
Declaration order is TODO, IN_PROGRESS, DONE. -/
inductive TaskStatus where
  | TODO
  | IN_PROGRESS
  | DONE
deriving DecidableEq, Repr

/-- Index of a status in the enum declaration order; Postgres sorts an enum
column by this order, which is what `orderBy: { status: 'asc' }` uses. -/
def TaskStatus.rank : TaskStatus → Nat
  | .TODO => 0
  | .IN_PROGRESS => 1
  | .DONE => 2

/-- A row of the `Todo` table (prisma model `Todo`): `id Int @id
@default(autoincrement())`, `title String`, `description String?`,
`status TaskStatus @default(TODO)`, `position Int @default(0)`,
`createdAt DateTime @default(now())`, `updatedAt DateTime @updatedAt`.
Timestamps are abstract `Nat` instants; `position` is an `INTEGER` column
and so ranges over `Int`. -/
structure Task where
  id : Nat
  title : String
  description : Option String
  status : TaskStatus
  position : Int
  createdAt : Nat
  updatedAt : Nat
deriving DecidableEq, Repr

/-- Database state: the `Todo` table contents plus the autoincrement
sequence that will supply the next `id`. -/
structure Store where
  tasks : List Task
  nextId : Nat
deriving DecidableEq, Repr

/-- The empty database, as after the migrations: no rows, sequence at 1. -/
def initStore : Store := { tasks := [], nextId := 1 }

/-- The error conditions an operation can signal.  `ValidationError` is the
`BadRequestException` thrown by `ZodValidationPipe.transform` when
`schema.parse` fails; `NotFoundError` is Prisma's record-not-found
rejection (P2025) of `update`/`delete` on a missing `id`;
`PrismaClientError` is the Prisma client's rejection of an argument that
does not fit the declared column type (e.g. a string outside the
`TaskStatus` enum), raised before the query runs. -/
inductive AppError where
  | ValidationError
  | NotFoundError
  | PrismaClientError
deriving DecidableEq, Repr

/-- A JSON field value, distinguished only as far as the backend's
validation distinguishes it: a string, an integer number, or anything
else (float, boolean, object, array, null). -/
inductive JVal where
  | jstr (s : String)
  | jint (n : Int)
  | jother
deriving DecidableEq, Repr

/-- A request body for `POST /todo` as it reaches `ZodValidationPipe`:
each of the four keys recognized by `createTodoSchema` is present with
some JSON value or absent, and `extraKeys` lists any other keys present
in the body (what `.strict()` inspects). -/
structure RawCreateInput where
  title : Option JVal := none
  description : Option JVal := none
  status : Option JVal := none
  position : Option JVal := none
  extraKeys : List String := []
deriving DecidableEq, Repr

/-- Parsing a string against the enum `z.enum(['TODO','IN_PROGRESS','DONE'])`;
also how the Prisma client and the database recognize a `TaskStatus` value. -/
def statusFromString : String → Option TaskStatus
  | "TODO" => some .TODO
  | "IN_PROGRESS" => some .IN_PROGRESS
  | "DONE" => some .DONE
  | _ => none

/-- The parse result of `createTodoSchema`: the shape of `CreateTodoDto`
after Zod has applied its checks and the `.default(0)` for `position`.
`status` stays optional (no Zod default; the database default applies
later). -/
structure CreateTodoDto where
  title : String
  description : Option String
  status : Option TaskStatus
  position : Int
deriving DecidableEq, Repr

/-- The `title` field rule: `z.string().min(1)`.  The value must be a
string of length at least 1; there is no trimming. -/
def parseTitle : Option JVal → Except AppError String
  | some (.jstr t) => if 1 ≤ t.length then .ok t else .error .ValidationError
  | _ => .error .ValidationError

/-- The `description` field rule: `z.string().optional()`. -/
def parseDescription : Option JVal → Except AppError (Option String)
  | none => .ok none
  | some (.jstr d) => .ok (some d)
  | some _ => .error .ValidationError

/-- The `status` field rule: `TaskStatus.optional()` — absent is fine,
otherwise the value must be a string naming one of the three enum members. -/
def parseStatusField : Option JVal → Except AppError (Option TaskStatus)
  | none => .ok none
  | some (.jstr sv) =>
    match statusFromString sv with
    | some st => .ok (some st)
    | none => .error .ValidationError
  | some _ => .error .ValidationError

/-- The `position` field rule: `z.number().int().optional().default(0)` —
absent becomes `0`; present must be an integer number.  There is no
non-negativity check. -/
def parsePosition : Option JVal → Except AppError Int
  | none => .ok 0
  | some (.jint n) => .ok n
  | some _ => .error .ValidationError

/-- `createTodoSchema.parse` as invoked by `ZodValidationPipe` on
`POST /todo`: `.strict()` rejects any unrecognized key, and each
recognized field is checked by its rule; any failure surfaces as the
pipe's `BadRequestException` (`ValidationError`). -/
def createTodoSchema (raw : RawCreateInput) : Except AppError CreateTodoDto :=
  if raw.extraKeys ≠ [] then .error .ValidationError
  else
    match parseTitle raw.title with
    | .error e => .error e
    | .ok t =>
      match parseDescription raw.description with
      | .error e => .error e
      | .ok d =>
        match parseStatusField raw.status with
        | .error e => .error e
        | .ok st =>
          match parsePosition raw.position with
          | .error e => .error e
          | .ok p =>
            .ok { title := t, description := d, status := st, position := p }

/-- `TodoController.create` + `TodoService.create`: the body is validated
by `ZodValidationPipe(createTodoSchema)`, then `prisma.todo.create` inserts
a row.  The database assigns `id` from the autoincrement sequence, applies
the column default `TODO` when `status` is undefined in the payload, and
stamps `createdAt`/`updatedAt` with the current instant.  On a validation
failure nothing is inserted. -/
def Store.createOp (s : Store) (now : Nat) (raw : RawCreateInput) :
    Except AppError (Task × Store) :=
  match createTodoSchema raw with
  | .error e => .error e
  | .ok dto =>
    let t : Task :=
      { id := s.nextId, title := dto.title, description := dto.description,
        status := dto.status.getD .TODO, position := dto.position,
        createdAt := now, updatedAt := now }
    .ok (t, { tasks := s.tasks ++ [t], nextId := s.nextId + 1 })

/-- Whether the table holds a row with the given `id`. -/
def Store.containsId (s : Store) (id : Nat) : Bool :=
  s.tasks.any (fun t => t.id == id)

/-- Lookup by the unique key `id`, as `where: { id }` does. -/
def Store.findTask (s : Store) (id : Nat) : Option Task :=
  s.tasks.find? (fun t => t.id == id)

/-- The row produced by `prisma.todo.update({ where: { id }, data:
{ status, position } })` on row `t`: `status` and `position` are
overwritten and `@updatedAt` refreshes `updatedAt`; every other column is
untouched. -/
def movedTask (t : Task) (st : TaskStatus) (pos : Int) (now : Nat) : Task :=
  { t with status := st, position := pos, updatedAt := now }

/-- `TodoController.moveTask` + `TodoService.updateStatus` for
`PATCH /todo/:id/move`.  This route carries no validation pipe, so the
body's `status` string and `position` number reach the service as-is.
The Prisma client rejects a `status` outside the enum before the query
runs; otherwise the single row with the given `id` is overwritten as in
`movedTask`, and a missing `id` fails with record-not-found (P2025). -/
def Store.moveOp (s : Store) (now : Nat) (id : Nat) (newStatus : String)
    (newPosition : Int) : Except AppError (Task × Store) :=
  match statusFromString newStatus with
  | none => .error .PrismaClientError
  | some st =>
    match s.findTask id with
    | none => .error .NotFoundError
    | some t =>
      let t' := movedTask t st newPosition now
      .ok (t', { s with tasks := s.tasks.map (fun u => if u.id = id then t' else u) })

/-- `TodoService.remove`: `prisma.todo.delete({ where: { id } })` — hard
delete of the row with the given `id`, returning its last state; a missing
`id` fails with record-not-found (P2025). -/
def Store.removeOp (s : Store) (id : Nat) : Except AppError (Task × Store) :=
  match s.findTask id with
  | none => .error .NotFoundError
  | some t => .ok (t, { s with tasks := s.tasks.filter (fun u => u.id != id) })

/-- State after a create request: the new state on success, the old state
when the operation signalled an error (the exception aborts the request
before any write). -/
def Store.runCreate (s : Store) (now : Nat) (raw : RawCreateInput) : Store :=
  match s.createOp now raw with
  | .ok r => r.2
  | .error _ => s

/-- State after a move request (old state when the operation errored). -/
def Store.runMove (s : Store) (now : Nat) (id : Nat) (newStatus : String)
    (newPosition : Int) : Store :=
  match s.moveOp now id newStatus newPosition with
  | .ok r => r.2
  | .error _ => s

/-- State after a delete request (old state when the operation errored). -/
def Store.runRemove (s : Store) (id : Nat) : Store :=
  match s.removeOp id with
  | .ok r => r.2
  | .error _ => s

/-- The row order produced by `orderBy: [{ status: 'asc' }, { position:
'asc' }]`: smaller status rank first, and inside one status, smaller
position first. -/
def taskOrd (a b : Task) : Prop :=
  a.status.rank < b.status.rank ∨
    (a.status.rank = b.status.rank ∧ a.position ≤ b.position)

instance : DecidableRel taskOrd := fun a b => by unfold taskOrd; infer_instance

instance : IsTotal Task taskOrd := ⟨by intro a b; unfold taskOrd; omega⟩

instance : IsTrans Task taskOrd := ⟨by intro a b c; unfold taskOrd; omega⟩

/-- `TodoService.findAll`: `prisma.todo.findMany` with the two-key
ordering — a read-only sorted snapshot of the table. -/
def Store.listAll (s : Store) : List Task :=
  List.insertionSort taskOrd s.tasks

/-- The response envelope shape produced by the interceptor. -/
structure Envelope (α : Type) where
  success : Bool
  data : α
  timestamp : String
deriving DecidableEq, Repr

namespace TransformInterceptor

/-- `TransformInterceptor.intercept`: maps the handler's result `data` to
`{ success: true, data, timestamp: new Date().toISOString() }`.  It runs
only on the success path (an exception bypasses the `map` operator). -/
def intercept {α : Type} (data : α) (nowIso : String) : Envelope α :=
  { success := true, data := data, timestamp := nowIso }

end TransformInterceptor

/-- Id hygiene of a database state: all row ids are below the sequence
value, and no two rows share an id (the `@id` primary key). -/
def GoodIds (s : Store) : Prop :=
  (∀ i ∈ s.tasks.map Task.id, i < s.nextId) ∧
    (s.tasks.map Task.id).Pairwise (fun a b => a ≠ b)

/-- States reachable from the empty database by the three mutating
operations (list is read-only). -/
inductive Reachable : Store → Prop where
  | init : Reachable initStore
  | create (s : Store) (now : Nat) (raw : RawCreateInput) (t : Task) (s' : Store) :
      Reachable s → s.createOp now raw = .ok (t, s') → Reachable s'
  | move (s : Store) (now id : Nat) (st : String) (pos : Int) (t : Task) (s' : Store) :
      Reachable s → s.moveOp now id st pos = .ok (t, s') → Reachable s'
  | remove (s : Store) (id : Nat) (t : Task) (s' : Store) :
      Reachable s → s.removeOp id = .ok (t, s') → Reachable s'

/-- A concrete row used to instantiate theorems at explicit inputs. -/
def sampleTask : Task :=
  { id := 1, title := "Write spec", description := none, status := .TODO,
    position := 0, createdAt := 0, updatedAt := 0 }

/-- A concrete one-row database used to instantiate theorems. -/
def sampleStore : Store := { tasks := [sampleTask], nextId := 2 }

theorem findTask_eq_none_of_containsId_false (s : Store) (id : Nat)
    (h : s.containsId id = false) : s.findTask id = none := by
  rw [Store.findTask, List.find?_eq_none]
  intro t ht
  have := (List.any_eq_false).mp h t ht
  simpa using this

theorem findTask_id (s : Store) (id : Nat) (t : Task)
    (h : s.findTask id = some t) : t.id = id := by
  have := List.find?_some h
  simpa using this

theorem findTask_isSome_of_containsId (s : Store) (id : Nat)
    (h : s.containsId id = true) : (s.findTask id).isSome = true := by
  rw [Store.findTask, List.find?_isSome]
  rw [Store.containsId, List.any_eq_true] at h
  exact h

theorem find?_map_update (l : List Task) (id : Nat) (t' : Task)
    (ht' : t'.id = id) :
    (l.map (fun u => if u.id = id then t' else u)).find? (fun u => u.id == id) =
      (l.find? (fun u => u.id == id)).map (fun _ => t') := by
  induction l with
  | nil => rfl
  | cons u l ih =>
    by_cases h : u.id = id
    · simp [h, List.find?_cons, ht']
    · simp [h, List.find?_cons, ih]

theorem find?_filter_ne (l : List Task) (id : Nat) :
    (l.filter (fun u => u.id != id)).find? (fun u => u.id == id) = none := by
  rw [List.find?_eq_none]
  intro t ht
  have := (List.mem_filter.mp ht).2
  simpa using this

theorem map_id_update (l : List Task) (id : Nat) (t' : Task) (ht' : t'.id = id) :
    ((l.map (fun u => if u.id = id then t' else u)).map Task.id) = l.map Task.id := by
  induction l with
  | nil => rfl
  | cons u l ih =>
    by_cases h : u.id = id <;> simp [h, ht', ih]

theorem runCreate_eq_of_ok (s : Store) (now : Nat) (raw : RawCreateInput)
    (t : Task) (s' : Store) (h : s.createOp now raw = .ok (t, s')) :
    s.runCreate now raw = s' := by
  simp [Store.runCreate, h]

theorem runCreate_eq_of_error (s : Store) (now : Nat) (raw : RawCreateInput)
    (e : AppError) (h : s.createOp now raw = .error e) :
    s.runCreate now raw = s := by
  simp [Store.runCreate, h]

theorem runMove_eq_of_ok (s : Store) (now id : Nat) (st : String) (pos : Int)
    (t : Task) (s' : Store) (h : s.moveOp now id st pos = .ok (t, s')) :
    s.runMove now id st pos = s' := by
  simp [Store.runMove, h]

theorem runMove_eq_of_error (s : Store) (now id : Nat) (st : String) (pos : Int)
    (e : AppError) (h : s.moveOp now id st pos = .error e) :
    s.runMove now id st pos = s := by
  simp [Store.runMove, h]

theorem runRemove_eq_of_ok (s : Store) (id : Nat) (t : Task) (s' : Store)
    (h : s.removeOp id = .ok (t, s')) : s.runRemove id = s' := by
  simp [Store.runRemove, h]

theorem runRemove_eq_of_error (s : Store) (id : Nat) (e : AppError)
    (h : s.removeOp id = .error e) : s.runRemove id = s := by
  simp [Store.runRemove, h]

end Kanban

namespace Kanban

/-- Claim C1: `listAll` returns all tasks of the store, sorted primarily by
status in the enum declaration order (TODO < IN_PROGRESS < DONE) and
secondarily by position ascending within a status group, and — being a
pure function of the store — two calls with no intervening mutation
return the same sequence. -/
theorem listAll_sorted_complete_deterministic (s : Store) :
    (s.listAll).Pairwise taskOrd ∧ (s.listAll).Perm s.tasks ∧
      s.listAll = s.listAll :=
  ⟨List.sorted_insertionSort taskOrd s.tasks,
   List.perm_insertionSort taskOrd s.tasks, rfl⟩

/-- Claim C10: every envelope the interceptor produces has `success = true`;
the mapping is unconditional and no envelope with `success = false` is ever
constructed. -/
theorem intercept_success_always_true {α : Type} (d : α) (ts : String) :
    (TransformInterceptor.intercept d ts).success = true := rfl

/-- Claim C2 counterexample: a title consisting of one space character is
not rejected — `z.string().min(1)` does not trim, so the create succeeds
and the store gains a task, contradicting the claim that a
whitespace-only title signals a ValidationError with no mutation. -/
theorem create_whitespace_title_not_rejected :
    (initStore.createOp 0 { title := some (.jstr " ") }).isOk = true ∧
      initStore.runCreate 0 { title := some (.jstr " ") } ≠ initStore := by
  decide

/-- Claim C2 amended: creating with a title that is the empty string
signals a ValidationError and leaves the store unchanged.  (A non-empty
whitespace-only title passes `z.string().min(1)` — the schema does not
trim — so the original "trims to empty" part fails.) -/
theorem create_empty_title_rejected (s : Store) (now : Nat)
    (raw : RawCreateInput) (h : raw.title = some (.jstr "")) :
    s.createOp now raw = .error .ValidationError ∧ s.runCreate now raw = s := by
  have hpt : parseTitle (some (.jstr "")) = .error .ValidationError := rfl
  have hschema : createTodoSchema raw = .error .ValidationError := by
    unfold createTodoSchema
    by_cases hx : raw.extraKeys = []
    · simp [hx, h, hpt]
    · simp [hx]
  refine ⟨?_, ?_⟩
  · simp [Store.createOp, hschema]
  · simp [Store.runCreate, Store.createOp, hschema]

/-- Witness for the amended C2 at a concrete input. -/
theorem create_empty_title_rejected_witness :
    initStore.createOp 0 { title := some (.jstr "") } = .error .ValidationError ∧
      initStore.runCreate 0 { title := some (.jstr "") } = initStore :=
  create_empty_title_rejected initStore 0 { title := some (.jstr "") } rfl

/-- Claim C3 counterexample: moving an existing task to position `-1` does
not signal a ValidationError — the move route has no validation pipe —
the call succeeds, the store changes, and the task ends up with the
negative position. -/
theorem move_negative_position_not_rejected :
    (sampleStore.moveOp 1 1 "TODO" (-1)).isOk = true ∧
      sampleStore.runMove 1 1 "TODO" (-1) ≠ sampleStore ∧
      (sampleStore.runMove 1 1 "TODO" (-1)).findTask 1 =
        some { sampleTask with position := -1, updatedAt := 1 } := by
  decide

/-- Claim C3 amended: the move route performs no request validation.  A
`newStatus` outside the closed set is rejected by the Prisma client (not
as the validation pipe's ValidationError) and the store is unchanged; with
a valid `newStatus` and an existing `id`, any integer `newPosition` —
negative included — is accepted and written to the task. -/
theorem move_no_input_validation (s : Store) (now id : Nat) (st : String)
    (pos : Int) :
    (statusFromString st = none →
      s.moveOp now id st pos = .error .PrismaClientError ∧
        s.runMove now id st pos = s) ∧
    (∀ stv, statusFromString st = some stv → s.containsId id = true →
      (s.moveOp now id st pos).isOk = true ∧
        ((s.runMove now id st pos).findTask id).map Task.position = some pos) := by
  constructor
  · intro h
    have hm : s.moveOp now id st pos = .error .PrismaClientError := by
      simp [Store.moveOp, h]
    exact ⟨hm, runMove_eq_of_error s now id st pos _ hm⟩
  · intro stv hst hc
    obtain ⟨t, ht⟩ :=
      Option.isSome_iff_exists.mp (findTask_isSome_of_containsId s id hc)
    have hid : t.id = id := findTask_id s id t ht
    have hmid : (movedTask t stv pos now).id = id := hid
    have hm : s.moveOp now id st pos = .ok (movedTask t stv pos now,
        { s with tasks := s.tasks.map (fun u => if u.id = id then movedTask t stv pos now else u) }) := by
      simp [Store.moveOp, hst, ht]
    refine ⟨by rw [hm]; rfl, ?_⟩
    rw [runMove_eq_of_ok s now id st pos _ _ hm]
    rw [Store.findTask]
    rw [show ({ s with tasks := s.tasks.map (fun u => if u.id = id then movedTask t stv pos now else u) } : Store).tasks = s.tasks.map (fun u => if u.id = id then movedTask t stv pos now else u) from rfl]
    rw [find?_map_update s.tasks id (movedTask t stv pos now) hmid]
    rw [show s.tasks.find? (fun u => u.id == id) = some t from ht]
    rfl

/-- Witness for the amended C3 at concrete inputs: an unknown status string
is rejected with the store unchanged, and a move to position `-5` with a
valid status succeeds and is written. -/
theorem move_no_input_validation_witness :
    (sampleStore.moveOp 7 1 "BOGUS" 0 = .error .PrismaClientError ∧
      sampleStore.runMove 7 1 "BOGUS" 0 = sampleStore) ∧
    ((sampleStore.moveOp 7 1 "DONE" (-5)).isOk = true ∧
      ((sampleStore.runMove 7 1 "DONE" (-5)).findTask 1).map Task.position =
        some (-5)) :=
  ⟨(move_no_input_validation sampleStore 7 1 "BOGUS" 0).1 (by decide),
   (move_no_input_validation sampleStore 7 1 "DONE" (-5)).2 .DONE (by decide)
     (by decide)⟩

/-- Claim C4: move and delete on an `id` absent from the store each signal
NotFoundError and leave the store exactly as it was; in particular, after
a successful delete of an `id`, a second delete of the same `id` signals
NotFoundError. -/
theorem missing_id_not_found (s : Store) (now id : Nat) (st : String)
    (pos : Int) :
    (s.containsId id = false → statusFromString st ≠ none →
      s.moveOp now id st pos = .error .NotFoundError ∧
        s.runMove now id st pos = s ∧
        s.removeOp id = .error .NotFoundError ∧
        s.runRemove id = s) ∧
    (∀ t s', s.removeOp id = .ok (t, s') →
      s'.removeOp id = .error .NotFoundError) := by
  constructor
  · intro hc hst
    have hf : s.findTask id = none := findTask_eq_none_of_containsId_false s id hc
    obtain ⟨stv, hstv⟩ := Option.ne_none_iff_exists.mp hst
    have hm : s.moveOp now id st pos = .error .NotFoundError := by
      simp [Store.moveOp, ← hstv, hf]
    have hr : s.removeOp id = .error .NotFoundError := by
      simp [Store.removeOp, hf]
    exact ⟨hm, runMove_eq_of_error s now id st pos _ hm, hr,
      runRemove_eq_of_error s id _ hr⟩
  · intro t s' h
    rw [Store.removeOp] at h
    cases hf : s.findTask id with
    | none => rw [hf] at h; cases h
    | some t0 =>
      rw [hf] at h
      injection h with h1
      injection h1 with h2 h3
      subst h3
      have hnone : ({ s with tasks := s.tasks.filter (fun u => u.id != id) } : Store).findTask id = none := by
        rw [Store.findTask]
        exact find?_filter_ne s.tasks id
      simp [Store.removeOp, hnone]

/-- Witness for C4 at concrete inputs: id 99 is absent from the one-task
sample store, and deleting id 1 twice fails the second time. -/
theorem missing_id_not_found_witness :
    (sampleStore.moveOp 3 99 "TODO" 0 = .error .NotFoundError ∧
      sampleStore.runMove 3 99 "TODO" 0 = sampleStore ∧
      sampleStore.removeOp 99 = .error .NotFoundError ∧
      sampleStore.runRemove 99 = sampleStore) ∧
    ({ tasks := [], nextId := 2 } : Store).removeOp 1 = .error .NotFoundError :=
  ⟨(missing_id_not_found sampleStore 3 99 "TODO" 0).1 (by decide) (by decide),
   (missing_id_not_found sampleStore 3 1 "TODO" 0).2 sampleTask
     { tasks := [], nextId := 2 } (by decide)⟩

/-- Claim C5: moving an existing task with a valid status overwrites
exactly that task's `status` and `position` with the given values and sets
`updatedAt` to the current instant, while its `id`, `title`, `description`
and `createdAt` are unchanged; every task with a different `id` is in the
resulting store unchanged, and nothing else appears — no re-numbering of
other tasks occurs. -/
theorem move_overwrites_exactly_target (s : Store) (now id : Nat)
    (st : String) (stv : TaskStatus) (pos : Int) (t : Task)
    (hst : statusFromString st = some stv) (ht : s.findTask id = some t) :
    s.moveOp now id st pos = .ok (movedTask t stv pos now,
      { s with tasks := s.tasks.map (fun u => if u.id = id then movedTask t stv pos now else u) }) ∧
    (movedTask t stv pos now).status = stv ∧
    (movedTask t stv pos now).position = pos ∧
    (movedTask t stv pos now).updatedAt = now ∧
    (movedTask t stv pos now).id = t.id ∧
    (movedTask t stv pos now).title = t.title ∧
    (movedTask t stv pos now).description = t.description ∧
    (movedTask t stv pos now).createdAt = t.createdAt ∧
    (∀ u ∈ s.tasks, u.id ≠ id → u ∈ (s.runMove now id st pos).tasks) ∧
    (∀ u ∈ (s.runMove now id st pos).tasks, u.id ≠ id → u ∈ s.tasks) := by
  have hid : t.id = id := findTask_id s id t ht
  have hm : s.moveOp now id st pos = .ok (movedTask t stv pos now,
      { s with tasks := s.tasks.map (fun u => if u.id = id then movedTask t stv pos now else u) }) := by
    simp [Store.moveOp, hst, ht]
  have hrun := runMove_eq_of_ok s now id st pos _ _ hm
  refine ⟨hm, rfl, rfl, rfl, rfl, rfl, rfl, rfl, ?_, ?_⟩
  · intro u hu hne
    rw [hrun]
    exact List.mem_map.mpr ⟨u, hu, by simp [hne]⟩
  · intro u hu hne
    rw [hrun] at hu
    obtain ⟨v, hv, hvu⟩ := List.mem_map.mp hu
    by_cases hvid : v.id = id
    · rw [if_pos hvid] at hvu
      subst hvu
      exact absurd hid hne
    · rw [if_neg hvid] at hvu
      subst hvu
      exact hv

/-- Witness for C5 at a concrete input: the sample task is moved to
IN_PROGRESS at position 4 at instant 9. -/
theorem move_overwrites_exactly_target_witness :
    sampleStore.moveOp 9 1 "IN_PROGRESS" 4 = .ok (movedTask sampleTask .IN_PROGRESS 4 9,
      { sampleStore with tasks := sampleStore.tasks.map (fun u => if u.id = 1 then movedTask sampleTask .IN_PROGRESS 4 9 else u) }) :=
  (move_overwrites_exactly_target sampleStore 9 1 "IN_PROGRESS" .IN_PROGRESS 4
    sampleTask (by decide) (by decide)).1

/-- Claim C6: a create whose body has a valid non-empty title, a valid
(possibly absent) description, no `status` key and no `position` key and
no extra keys succeeds and returns a fully populated record: `status`
defaults to TODO (database column default), `position` defaults to 0 (Zod
`.default(0)`), `id` is the next sequence value, and both timestamps are
the current instant. -/
theorem create_defaults (s : Store) (now : Nat) (raw : RawCreateInput)
    (ttl : String) (dv : Option String)
    (htitle : raw.title = some (.jstr ttl)) (hlen : 1 ≤ ttl.length)
    (hdesc : parseDescription raw.description = .ok dv)
    (hstatus : raw.status = none) (hpos : raw.position = none)
    (hextra : raw.extraKeys = []) :
    s.createOp now raw = .ok
      ({ id := s.nextId, title := ttl, description := dv, status := .TODO,
         position := 0, createdAt := now, updatedAt := now },
       { tasks := s.tasks ++ [{ id := s.nextId, title := ttl, description := dv, status := .TODO, position := 0, createdAt := now, updatedAt := now }],
         nextId := s.nextId + 1 }) := by
  have hpt : parseTitle raw.title = .ok ttl := by
    rw [htitle]
    simp [parseTitle, hlen]
  have hschema : createTodoSchema raw = .ok
      { title := ttl, description := dv, status := none, position := 0 } := by
    unfold createTodoSchema
    simp [hextra, hpt, hdesc, hstatus, hpos, parseStatusField, parsePosition]
  simp [Store.createOp, hschema]

/-- Witness for C6 at a concrete input: a body carrying only a title. -/
theorem create_defaults_witness :
    initStore.createOp 5 { title := some (.jstr "Write spec") } = .ok
      ({ id := 1, title := "Write spec", description := none, status := .TODO,
         position := 0, createdAt := 5, updatedAt := 5 },
       { tasks := [{ id := 1, title := "Write spec", description := none, status := .TODO, position := 0, createdAt := 5, updatedAt := 5 }],
         nextId := 2 }) :=
  create_defaults initStore 5 { title := some (.jstr "Write spec") }
    "Write spec" none rfl (by decide) rfl rfl rfl rfl

/-- Claim C7 counterexample: a create body with title "a" and position -1
is not rejected — `z.number().int()` has no non-negativity check — the
create succeeds and the stored task has position -1. -/
theorem create_negative_position_not_rejected :
    (initStore.createOp 0 { title := some (.jstr "a"), position := some (.jint (-1)) }).isOk = true ∧
      (initStore.runCreate 0 { title := some (.jstr "a"), position := some (.jint (-1)) }).tasks.map Task.position = [(-1 : Int)] := by
  decide

/-- Claim C7 amended: a supplied `position` may be any integer — the
schema checks only that it is an integer number, so a negative position is
accepted and the task is created carrying that negative position. -/
theorem create_negative_position_accepted (s : Store) (now : Nat)
    (raw : RawCreateInput) (n : Int) (ttl : String) (dv : Option String)
    (sv : Option TaskStatus)
    (htitle : raw.title = some (.jstr ttl)) (hlen : 1 ≤ ttl.length)
    (hdesc : parseDescription raw.description = .ok dv)
    (hstat : parseStatusField raw.status = .ok sv)
    (hpos : raw.position = some (.jint n)) (hn : n < 0)
    (hextra : raw.extraKeys = []) :
    s.createOp now raw = .ok
      ({ id := s.nextId, title := ttl, description := dv,
         status := sv.getD .TODO, position := n,
         createdAt := now, updatedAt := now },
       { tasks := s.tasks ++ [{ id := s.nextId, title := ttl, description := dv, status := sv.getD .TODO, position := n, createdAt := now, updatedAt := now }],
         nextId := s.nextId + 1 }) := by
  have hpt : parseTitle raw.title = .ok ttl := by
    rw [htitle]
    simp [parseTitle, hlen]
  have hpp : parsePosition raw.position = .ok n := by
    rw [hpos]
    rfl
  have hschema : createTodoSchema raw = .ok
      { title := ttl, description := dv, status := sv, position := n } := by
    unfold createTodoSchema
    simp [hextra, hpt, hdesc, hstat, hpp]
  simp [Store.createOp, hschema]

/-- Witness for the amended C7 at a concrete input with position -1. -/
theorem create_negative_position_accepted_witness :
    initStore.createOp 0 { title := some (.jstr "a"), position := some (.jint (-1)) } = .ok
      ({ id := 1, title := "a", description := none, status := .TODO,
         position := -1, createdAt := 0, updatedAt := 0 },
       { tasks := [{ id := 1, title := "a", description := none, status := .TODO, position := -1, createdAt := 0, updatedAt := 0 }],
         nextId := 2 }) :=
  create_negative_position_accepted initStore 0
    { title := some (.jstr "a"), position := some (.jint (-1)) } (-1) "a"
    none none rfl (by decide) rfl rfl rfl (by decide) rfl

/-- Claim C8: a create body carrying any key outside the four recognized
ones is rejected by `.strict()` with a ValidationError, and the store is
unchanged. -/
theorem create_extra_field_rejected (s : Store) (now : Nat)
    (raw : RawCreateInput) (k : String) (hk : k ∈ raw.extraKeys) :
    s.createOp now raw = .error .ValidationError ∧ s.runCreate now raw = s := by
  have hx : raw.extraKeys ≠ [] := by
    intro h
    rw [h] at hk
    cases hk
  have hschema : createTodoSchema raw = .error .ValidationError := by
    unfold createTodoSchema
    simp [hx]
  have hc : s.createOp now raw = .error .ValidationError := by
    simp [Store.createOp, hschema]
  exact ⟨hc, runCreate_eq_of_error s now raw _ hc⟩

/-- Witness for C8 at a concrete input: a body with an extra key
"priority" is rejected with the store untouched. -/
theorem create_extra_field_rejected_witness :
    sampleStore.createOp 2 { title := some (.jstr "x"), extraKeys := ["priority"] } = .error .ValidationError ∧
      sampleStore.runCreate 2 { title := some (.jstr "x"), extraKeys := ["priority"] } = sampleStore :=
  create_extra_field_rejected sampleStore 2
    { title := some (.jstr "x"), extraKeys := ["priority"] } "priority"
    (by decide)

theorem goodIds_createOp (s : Store) (now : Nat) (raw : RawCreateInput)
    (t : Task) (s' : Store) (hg : GoodIds s)
    (h : s.createOp now raw = .ok (t, s')) :
    GoodIds s' ∧ t.id = s.nextId ∧ s'.tasks = s.tasks ++ [t] := by
  rw [Store.createOp] at h
  cases hc : createTodoSchema raw with
  | error e => rw [hc] at h; cases h
  | ok dto =>
    rw [hc] at h
    injection h with h1
    injection h1 with h2 h3
    subst h2
    subst h3
    refine ⟨⟨?_, ?_⟩, rfl, rfl⟩
    · intro i hi
      rw [List.map_append] at hi
      rcases List.mem_append.mp hi with hi | hi
      · exact Nat.lt_succ_of_lt (hg.1 i hi)
      · simp at hi
        show i < s.nextId + 1
        omega
    · rw [List.map_append, List.pairwise_append]
      refine ⟨hg.2, List.pairwise_singleton _ _, ?_⟩
      intro a ha b hb
      simp at hb
      subst hb
      exact Nat.ne_of_lt (hg.1 a ha)

theorem moveOp_ids (s : Store) (now id : Nat) (st : String) (pos : Int)
    (t : Task) (s' : Store) (h : s.moveOp now id st pos = .ok (t, s')) :
    s'.tasks.map Task.id = s.tasks.map Task.id ∧ s'.nextId = s.nextId := by
  rw [Store.moveOp] at h
  cases hst : statusFromString st with
  | none => rw [hst] at h; cases h
  | some stv =>
    rw [hst] at h
    cases hf : s.findTask id with
    | none => rw [hf] at h; cases h
    | some t0 =>
      rw [hf] at h
      injection h with h1
      injection h1 with h2 h3
      subst h3
      have hmid : (movedTask t0 stv pos now).id = id := findTask_id s id t0 hf
      exact ⟨map_id_update s.tasks id (movedTask t0 stv pos now) hmid, rfl⟩

theorem removeOp_sub (s : Store) (id : Nat) (t : Task) (s' : Store)
    (h : s.removeOp id = .ok (t, s')) :
    s'.tasks.Sublist s.tasks ∧ s'.nextId = s.nextId := by
  rw [Store.removeOp] at h
  cases hf : s.findTask id with
  | none => rw [hf] at h; cases h
  | some t0 =>
    rw [hf] at h
    injection h with h1
    injection h1 with h2 h3
    subst h3
    exact ⟨List.filter_sublist _, rfl⟩

theorem reachable_goodIds (s : Store) (h : Reachable s) : GoodIds s := by
  induction h with
  | init => exact ⟨by simp [initStore], by simp [initStore]⟩
  | create s now raw t s' hr hc ih =>
    exact (goodIds_createOp s now raw t s' ih hc).1
  | move s now id st pos t s' hr hm ih =>
    obtain ⟨hids, hnext⟩ := moveOp_ids s now id st pos t s' hm
    refine ⟨?_, ?_⟩
    · intro i hi
      rw [hids] at hi
      rw [hnext]
      exact ih.1 i hi
    · rw [hids]
      exact ih.2
  | remove s id t s' hr hm ih =>
    obtain ⟨hsub, hnext⟩ := removeOp_sub s id t s' hm
    refine ⟨?_, ?_⟩
    · intro i hi
      rw [hnext]
      exact ih.1 i ((hsub.map Task.id).subset hi)
    · exact ih.2.sublist (hsub.map Task.id)

/-- The one-task sample store is reachable: it is exactly the result of
one valid create on the empty database. -/
theorem reachable_sampleStore : Reachable sampleStore :=
  Reachable.create initStore 0 { title := some (.jstr "Write spec") }
    sampleTask sampleStore Reachable.init (by decide)

/-- Claim C9: in every state reachable by the store's operations, no two
tasks share an id; a successful create returns a task whose id differs
from every task already in the store; a move never changes any task's id;
and a delete only removes — every surviving task was already present. -/
theorem ids_unique_and_immutable (s : Store) (hs : Reachable s) :
    ((s.tasks.map Task.id).Pairwise (fun a b => a ≠ b)) ∧
    (∀ now raw t s', s.createOp now raw = .ok (t, s') →
      ∀ u ∈ s.tasks, u.id ≠ t.id) ∧
    (∀ now id st pos t s', s.moveOp now id st pos = .ok (t, s') →
      s'.tasks.map Task.id = s.tasks.map Task.id) ∧
    (∀ id t s', s.removeOp id = .ok (t, s') → ∀ u ∈ s'.tasks, u ∈ s.tasks) := by
  have hg := reachable_goodIds s hs
  refine ⟨hg.2, ?_, ?_, ?_⟩
  · intro now raw t s' hc u hu
    have hfresh := (goodIds_createOp s now raw t s' hg hc).2.1
    have hlt := hg.1 u.id (List.mem_map_of_mem Task.id hu)
    omega
  · intro now id st pos t s' hm
    exact (moveOp_ids s now id st pos t s' hm).1
  · intro id t s' hm u hu
    exact (removeOp_sub s id t s' hm).1.subset hu

/-- Witness for C9 at a concrete reachable store: the sample store has
pairwise distinct ids, and a concrete create on it returns id 2, distinct
from the resident id 1. -/
theorem ids_unique_and_immutable_witness :
    ((sampleStore.tasks.map Task.id).Pairwise (fun a b => a ≠ b)) ∧
    (∀ u ∈ sampleStore.tasks,
      u.id ≠ ({ id := 2, title := "b", description := none, status := .TODO, position := 0, createdAt := 3, updatedAt := 3 } : Task).id) := by
  have h := ids_unique_and_immutable sampleStore reachable_sampleStore
  refine ⟨h.1, ?_⟩
  exact h.2.1 3 { title := some (.jstr "b") }
    { id := 2, title := "b", description := none, status := .TODO, position := 0, createdAt := 3, updatedAt := 3 }
    { tasks := [sampleTask, { id := 2, title := "b", description := none, status := .TODO, position := 0, createdAt := 3, updatedAt := 3 }], nextId := 3 }
    (by decide)

end Kanban
